import Mathlib

/-!
Verification of the owockibot bounty-board SDK (Python) against its
natural-language specification.

The development shallowly embeds the repository's code:
* `owockibot/models.py`  — `Bounty.from_dict`, `Stats.from_dict`, the nested
  `Submission`/`Payment` construction (mapper layer);
* `owockibot/client.py`  — `BountyClient._request` retry loop,
  `list_bounties`, `claim_bounty`, `submit_bounty` (sync client);
* `owockibot/async_client.py` — `AsyncBountyClient._request` and friends
  (async client).

Modelling conventions:
* JSON values are an inductive `Json`; Python dynamic values flowing through
  the mapper are kept as `Json` wherever the source code does not convert
  them (Python dataclasses do not enforce their annotations).
* Python exceptions collapse to `Option`/explicit `crash` outcomes.
* `datetime` objects are `PyDateTime`: either naive (wall-clock microseconds)
  or aware (wall-clock microseconds plus a fixed UTC offset in minutes).
  `datetime.fromtimestamp` converts to local time, modelled by an explicit
  fixed local-offset parameter `off` (minutes east of UTC); `datetime.now()`
  is modelled by an explicit parameter `now` (current local wall clock in
  microseconds).  JSON numbers are modelled as integers (no claim exercises
  fractional numbers).
* The transport is a trace: a list of `WireEvent`s, one consumed per network
  call; `time.sleep`/`asyncio.sleep` durations are recorded in a list.
-/

/-- A JSON value as produced by `json.loads` / `response.json()`.
Numbers are modelled as integers; object member order and duplicates are kept
(lookup takes the first match, as a Python dict built by `json.loads` keeps
the last duplicate - duplicate keys never occur in the inputs considered). -/
inductive Json where
  | null
  | bool (b : Bool)
  | int (n : Int)
  | str (s : String)
  | arr (xs : List Json)
  | obj (kvs : List (String × Json))
deriving Repr

mutual
def jsonDecEq : (a b : Json) → Decidable (a = b)
  | .null, .null => isTrue rfl
  | .bool a, .bool b =>
    match decEq a b with
    | isTrue h => isTrue (by rw [h])
    | isFalse h => isFalse (by intro hh; injection hh; contradiction)
  | .int a, .int b =>
    match decEq a b with
    | isTrue h => isTrue (by rw [h])
    | isFalse h => isFalse (by intro hh; injection hh; contradiction)
  | .str a, .str b =>
    match decEq a b with
    | isTrue h => isTrue (by rw [h])
    | isFalse h => isFalse (by intro hh; injection hh; contradiction)
  | .arr a, .arr b =>
    match jsonListDecEq a b with
    | isTrue h => isTrue (by rw [h])
    | isFalse h => isFalse (by intro hh; injection hh; contradiction)
  | .obj a, .obj b =>
    match jsonKVsDecEq a b with
    | isTrue h => isTrue (by rw [h])
    | isFalse h => isFalse (by intro hh; injection hh; contradiction)
  | .null, .bool _ => isFalse nofun
  | .null, .int _ => isFalse nofun
  | .null, .str _ => isFalse nofun
  | .null, .arr _ => isFalse nofun
  | .null, .obj _ => isFalse nofun
  | .bool _, .null => isFalse nofun
  | .bool _, .int _ => isFalse nofun
  | .bool _, .str _ => isFalse nofun
  | .bool _, .arr _ => isFalse nofun
  | .bool _, .obj _ => isFalse nofun
  | .int _, .null => isFalse nofun
  | .int _, .bool _ => isFalse nofun
  | .int _, .str _ => isFalse nofun
  | .int _, .arr _ => isFalse nofun
  | .int _, .obj _ => isFalse nofun
  | .str _, .null => isFalse nofun
  | .str _, .bool _ => isFalse nofun
  | .str _, .int _ => isFalse nofun
  | .str _, .arr _ => isFalse nofun
  | .str _, .obj _ => isFalse nofun
  | .arr _, .null => isFalse nofun
  | .arr _, .bool _ => isFalse nofun
  | .arr _, .int _ => isFalse nofun
  | .arr _, .str _ => isFalse nofun
  | .arr _, .obj _ => isFalse nofun
  | .obj _, .null => isFalse nofun
  | .obj _, .bool _ => isFalse nofun
  | .obj _, .int _ => isFalse nofun
  | .obj _, .str _ => isFalse nofun
  | .obj _, .arr _ => isFalse nofun

def jsonListDecEq : (a b : List Json) → Decidable (a = b)
  | [], [] => isTrue rfl
  | [], _ :: _ => isFalse nofun
  | _ :: _, [] => isFalse nofun
  | a :: as, b :: bs =>
    match jsonDecEq a b, jsonListDecEq as bs with
    | isTrue h1, isTrue h2 => isTrue (by rw [h1, h2])
    | isFalse h1, _ => isFalse (by intro hh; injection hh; contradiction)
    | _, isFalse h2 => isFalse (by intro hh; injection hh; contradiction)

def jsonKVsDecEq : (a b : List (String × Json)) → Decidable (a = b)
  | [], [] => isTrue rfl
  | [], _ :: _ => isFalse nofun
  | _ :: _, [] => isFalse nofun
  | (k1, v1) :: as, (k2, v2) :: bs =>
    match decEq k1 k2, jsonDecEq v1 v2, jsonKVsDecEq as bs with
    | isTrue h1, isTrue h2, isTrue h3 => isTrue (by rw [h1, h2, h3])
    | isFalse h1, _, _ =>
      isFalse (by intro hh; injection hh with hp _; injection hp; contradiction)
    | _, isFalse h2, _ =>
      isFalse (by intro hh; injection hh with hp _; injection hp; contradiction)
    | _, _, isFalse h3 => isFalse (by intro hh; injection hh; contradiction)
end

instance : DecidableEq Json := jsonDecEq

namespace Json

/-- `d.get(k)` on a Python dict (first matching key). On a non-dict value the
call sites in the source either guard with an `isinstance`-like match or the
surrounding model branches on objness first; here non-objects give `none`. -/
def get : Json → String → Option Json
  | .obj kvs, k => go kvs k
  | _, _ => none
where go : List (String × Json) → String → Option Json
  | [], _ => none
  | (k2, v) :: rest, k => if k2 = k then some v else go rest k

/-- `d.get(k, default)`. -/
def getD (j : Json) (k : String) (v : Json) : Json :=
  (j.get k).getD v

/-- Python truthiness of a JSON-decoded value. -/
def truthy : Json → Bool
  | .null => false
  | .bool b => b
  | .int n => n != 0
  | .str s => !s.isEmpty
  | .arr xs => !xs.isEmpty
  | .obj kvs => !kvs.isEmpty

end Json

/-- Truthiness of an optional value (`None` is falsy). -/
def truthyOpt : Option Json → Bool
  | none => false
  | some j => j.truthy

/-- Python `==` between a JSON-decoded value and a `str` (used by the
`b.status == status` filter): equal iff the value is that string. -/
def pyEqStr (j : Json) (s : String) : Bool :=
  match j with
  | .str t => t = s
  | _ => false

/-- `p` is a (character-list) prefix of `s`. -/
def listStarts : List Char → List Char → Bool
  | _, [] => true
  | [], _ :: _ => false
  | a :: as, b :: bs => a = b && listStarts as bs

/-- Python substring test `pat in hay` on character lists. -/
def listHasSub (pat : List Char) : List Char → Bool
  | [] => pat.isEmpty
  | c :: rest => listStarts (c :: rest) pat || listHasSub pat rest

/-- Python `pat in hay` for strings. -/
def strHasSub (hay pat : String) : Bool :=
  listHasSub pat.toList hay.toList

/-- Python `s.lower()`; modelled for ASCII (all strings the clients compare
are ASCII). -/
def pyLower (s : String) : String :=
  String.mk (s.toList.map Char.toLower)

/-- The clients' already-claimed test: `"claimed" in error_text.lower()`. -/
def hasClaimed (s : String) : Bool :=
  strHasSub (pyLower s) "claimed"

/-- Python `in` against a JSON-decoded container (`t in b.tags`): list
membership via `==`, substring for strings, key membership for dicts,
`TypeError` (`none`) otherwise. -/
def pyInJ (t : String) (j : Json) : Option Bool :=
  match j with
  | .arr xs => some (decide (Json.str t ∈ xs))
  | .str s => some (strHasSub s t)
  | .obj kvs => some (decide (t ∈ kvs.map Prod.fst))
  | _ => none

/-- Iterating a JSON-decoded value in a `for` loop: a list yields elements, a
dict its keys, a string its characters (as length-1 strings), anything else
is a `TypeError`. -/
def pyIterList : Json → Option (List Json)
  | .arr xs => some xs
  | .obj kvs => some (kvs.map (fun kv => Json.str kv.1))
  | .str s => some (s.toList.map (fun c => Json.str (String.mk [c])))
  | _ => none

mutual
/-- Python `repr` of a JSON-decoded value (used in the sync client's
`f"API error {e.code}: {error_data}"`).  String escaping is modelled only for
strings without quote/backslash characters, which covers every input
considered here. -/
def pyRepr : Json → String
  | .null => "None"
  | .bool true => "True"
  | .bool false => "False"
  | .int n => toString n
  | .str s => "\x27" ++ s ++ "\x27"
  | .arr xs => "[" ++ ", ".intercalate (pyReprList xs) ++ "]"
  | .obj kvs => "\x7b" ++ ", ".intercalate (pyReprKVs kvs) ++ "\x7d"

def pyReprList : List Json → List String
  | [] => []
  | j :: js => pyRepr j :: pyReprList js

def pyReprKVs : List (String × Json) → List String
  | [] => []
  | (k, v) :: kvs => ("\x27" ++ k ++ "\x27: " ++ pyRepr v) :: pyReprKVs kvs
end

/-- Python `str()` of a JSON-decoded value (used in the async client's
`f"API error {response.status}: {error_msg}"`). -/
def pyStr : Json → String
  | .str s => s
  | j => pyRepr j

/-! ## datetime model -/

/-- A Python `datetime`: naive (wall-clock microseconds since
1970-01-01T00:00:00 of the wall clock) or aware (wall-clock microseconds in
the given fixed UTC offset, minutes east). -/
inductive PyDateTime where
  | naive (us : Int)
  | aware (us : Int) (offMin : Int)
deriving DecidableEq, Repr

/-- Python `==` between datetimes: naive ones compare by wall clock, aware
ones by UTC instant, and a naive datetime never equals an aware one. -/
def pyDtEq : PyDateTime → PyDateTime → Bool
  | .naive a, .naive b => a = b
  | .aware a o, .aware b p => a - o * 60000000 = b - p * 60000000
  | _, _ => false

/-- `datetime.fromtimestamp(ms / 1000)` with a fixed local UTC offset `off`
(minutes east): a naive local datetime.  `ms / 1000` is float true division;
for millisecond epochs within double precision it is exact, so the result is
`ms * 1000` microseconds shifted into local time. -/
def fromtimestampMs (off : Int) (ms : Int) : PyDateTime :=
  .naive (ms * 1000 + off * 60000000)

/-- Days from 1970-01-01 of a civil date (proleptic Gregorian). -/
def daysFromCivil (y : Int) (m d : Nat) : Int :=
  let y2 : Int := if m ≤ 2 then y - 1 else y
  let era : Int := (if 0 ≤ y2 then y2 else y2 - 399) / 400
  let yoe : Int := y2 - era * 400
  let mp : Nat := (m + 9) % 12
  let doy : Int := (153 * (mp : Int) + 2) / 5 + (d : Int) - 1
  let doe : Int := yoe * 365 + yoe / 4 - yoe / 100 + doy
  era * 146097 + doe - 719468

/-- Whether a proleptic-Gregorian year is a leap year. -/
def isLeapYear (y : Nat) : Bool :=
  (y % 4 = 0 && y % 100 ≠ 0) || y % 400 = 0

/-- Days in a month. -/
def daysInMonth (y m : Nat) : Nat :=
  if m = 2 then (if isLeapYear y then 29 else 28)
  else if m = 4 ∨ m = 6 ∨ m = 9 ∨ m = 11 then 30
  else 31

/-- Read exactly `n` decimal digits, accumulating into `acc`. -/
def readNDigits : Nat → Nat → List Char → Option (Nat × List Char)
  | 0, acc, cs => some (acc, cs)
  | _ + 1, _, [] => none
  | n + 1, acc, c :: cs =>
    if c.isDigit then readNDigits n (acc * 10 + (c.toNat - 48)) cs else none

/-- Read 1 to `max` decimal digits of a fractional second, returning its value
in microseconds. -/
def readFrac : Nat → Nat → Nat → List Char → Option (Nat × List Char)
  | 0, acc, _, cs => some (acc, cs)
  | _ + 1, acc, _, [] => some (acc, [])
  | n + 1, acc, scale, c :: cs =>
    if c.isDigit then readFrac n (acc + (c.toNat - 48) * (scale / 10)) (scale / 10) cs
    else some (acc, c :: cs)

/-- Parse the `±HH:MM` or `Z` offset suffix (minutes east of UTC). -/
def parseOffset : List Char → Option (Option Int × List Char)
  | [] => some (none, [])
  | 'Z' :: cs => some (some 0, cs)
  | '+' :: cs => parseSigned 1 cs
  | '-' :: cs => parseSigned (-1) cs
  | cs => some (none, cs)
where parseSigned (sign : Int) (cs : List Char) : Option (Option Int × List Char) := do
  let (h, cs) ← readNDigits 2 0 cs
  match cs with
  | ':' :: cs => do
    let (mi, cs) ← readNDigits 2 0 cs
    if h < 24 && mi < 60 then pure (some (sign * ((h : Int) * 60 + mi)), cs) else none
  | _ => none

/-- Parse the `HH:MM[:SS[.ffffff]]` part of an ISO string; microseconds of day. -/
def parseTimePart (cs : List Char) : Option (Nat × List Char) := do
  let (h, cs) ← readNDigits 2 0 cs
  match cs with
  | ':' :: cs => do
    let (mi, cs) ← readNDigits 2 0 cs
    let (s, us, cs) ← (do
      match cs with
      | ':' :: cs2 => do
        let (s, cs2) ← readNDigits 2 0 cs2
        match cs2 with
        | '.' :: c :: cs3 =>
          if c.isDigit then do
            let (f, cs4) ← readFrac 5 ((c.toNat - 48) * 100000) 100000 cs3
            pure (s, f, cs4)
          else none
        | _ => pure (s, 0, cs2)
      | _ => pure (0, 0, cs) : Option (Nat × Nat × List Char))
    if h < 24 && mi < 60 && s < 60 then
      pure (((h * 3600 + mi * 60 + s) * 1000000 + us), cs)
    else none
  | _ => none

/-- Parse an ISO-8601 string `YYYY-MM-DD[(T| )HH:MM[:SS[.ffffff]]][offset]`,
the grammar accepted by `datetime.fromisoformat` (Python ≥ 3.11, which also
accepts the `Z` designator).  Yields wall-clock microseconds since the epoch
of the wall clock, plus the explicit offset when one is present. -/
def parseIso (cs : List Char) : Option (Int × Option Int) := do
  let (y, cs) ← readNDigits 4 0 cs
  match cs with
  | '-' :: cs => do
    let (mo, cs) ← readNDigits 2 0 cs
    match cs with
    | '-' :: cs => do
      let (d, cs) ← readNDigits 2 0 cs
      if 1 ≤ mo && mo ≤ 12 && 1 ≤ d && d ≤ daysInMonth y mo then do
        let (usOfDay, cs) ← (do
          match cs with
          | 'T' :: cs2 => parseTimePart cs2
          | ' ' :: cs2 => parseTimePart cs2
          | _ => pure (0, cs) : Option (Nat × List Char))
        let (off, cs) ← parseOffset cs
        match cs with
        | [] => pure (daysFromCivil y mo d * 86400000000 + (usOfDay : Int), off)
        | _ => none
      else none
    | _ => none
  | _ => none

/-- `datetime.fromisoformat`. -/
def fromisoformat (s : String) : Option PyDateTime :=
  (parseIso s.toList).map (fun wo =>
    match wo.2 with
    | none => .naive wo.1
    | some o => .aware wo.1 o)

/-- Python `s.replace("Z", "+00:00")` (the `processedAt` preprocessing). -/
def pyReplaceZ (s : String) : String :=
  String.mk (s.toList.foldr
    (fun c acc => if c = 'Z' then '+' :: '0' :: '0' :: ':' :: '0' :: '0' :: acc else c :: acc) [])

/-! ## Domain model (`owockibot/models.py`)

Dataclass fields hold whatever the wire dict supplied (Python does not
enforce the annotations), so untouched fields are kept as `Json`; fields the
code converts (`reward`, timestamps) get converted types. -/

/-- `models.Submission`. -/
structure Submission where
  id : Json
  content : Json
  proof : Option Json
  submitted_at : PyDateTime
deriving DecidableEq, Repr

/-- `models.Payment`. -/
structure Payment where
  chain : Json
  token : Json
  tx_hash : Json
  gross_reward : Json
  net_reward : Json
  fee : Json
  fee_percent : Json
  processed_at : PyDateTime
deriving DecidableEq, Repr

/-- `models.Bounty`. -/
structure Bounty where
  id : Json
  uuid : Json
  title : Json
  description : Json
  reward : Int
  reward_formatted : Json
  status : Json
  creator : Json
  deadline : Option PyDateTime
  tags : Json
  requirements : Json
  submissions : List Submission
  claimed_by : Option Json
  claimed_at : Option PyDateTime
  completed_at : Option PyDateTime
  payment : Option Payment
deriving DecidableEq, Repr

/-- `models.Stats`. -/
structure Stats where
  total_bounties : Json
  open_bounties : Json
  claimed_bounties : Json
  completed_bounties : Json
  total_payouts : Json
  total_payouts_formatted : Json
deriving DecidableEq, Repr

/-- `models.ClaimResult`. -/
structure ClaimResult where
  id : Json
  status : Json
  claimed_at : PyDateTime
  claimed_by : Json
deriving DecidableEq, Repr

/-- `models.SubmitResult`. -/
structure SubmitResult where
  id : Json
  status : Json
  submission_id : Json
deriving DecidableEq, Repr

/-- A millisecond-epoch value for the `x / 1000` conversions: `int` passes
through, `bool` counts as `int` (`isinstance(True, int)` holds and
`True / 1000` is fine), anything else is a `TypeError` (`none`). -/
def msValue : Json → Option Int
  | .int n => some n
  | .bool b => some (if b then 1 else 0)
  | _ => none

/-- One element of the `submissions` comprehension: `s["id"]`, `s["content"]`,
`s.get("proof")`, `datetime.fromtimestamp(s["submittedAt"] / 1000)`.  A
non-dict element or a missing/ill-typed field raises (`none`). -/
def subOf (off : Int) (s : Json) : Option Submission :=
  match s with
  | .obj _ => do
    let idv ← s.get "id"
    let cv ← s.get "content"
    let sa ← s.get "submittedAt"
    let n ← msValue sa
    pure ⟨idv, cv, s.get "proof", fromtimestampMs off n⟩
  | _ => none

/-- The `submissions` list of `Bounty.from_dict`: iterate
`data.get("submissions", [])`. -/
def submissionsOf (off : Int) (data : Json) : Option (List Submission) :=
  match data.get "submissions" with
  | none => some []
  | some v => (pyIterList v).bind (fun items => items.mapM (subOf off))

/-- The `processed_at` expression:
`datetime.fromisoformat(p["processedAt"].replace("Z", "+00:00")) if
p.get("processedAt") else datetime.now()`.  `now` is the current local wall
clock in microseconds.  A truthy non-string raises `AttributeError`, an
unparseable string raises `ValueError` (both `none`). -/
def processedAtOf (now : Int) (pj : Json) : Option PyDateTime :=
  match pj.get "processedAt" with
  | some v =>
    if v.truthy then
      match v with
      | .str s => fromisoformat (pyReplaceZ s)
      | _ => none
    else some (.naive now)
  | none => some (.naive now)

/-- The `payment` stage of `Bounty.from_dict`: guarded by
`data.get("payment") and data["payment"].get("chain")` (both truthy).
Result: `none` = an exception escaped, `some none` = no `Payment`
constructed, `some (some p)` = `Payment` built. -/
def paymentOf (now : Int) (data : Json) : Option (Option Payment) :=
  match data.get "payment" with
  | none => some none
  | some pj =>
    if pj.truthy then
      match pj with
      | .obj _ =>
        if truthyOpt (pj.get "chain") then
          match processedAtOf now pj with
          | none => none
          | some pa =>
            some (some ⟨pj.getD "chain" (.str "base"), pj.getD "token" (.str "USDC"),
              pj.getD "txHash" (.str ""), pj.getD "grossReward" (.int 0),
              pj.getD "netReward" (.int 0), pj.getD "fee" (.int 0),
              pj.getD "feePercent" (.str "0%"), pa⟩)
        else some none
      | _ => none
    else some none

/-- The `deadline` stage: skipped when falsy; an `int` (or `bool`) is
epoch-milliseconds via `fromtimestamp`, a string goes to `fromisoformat`
verbatim, anything else raises `TypeError`. -/
def deadlineOf (off : Int) (data : Json) : Option (Option PyDateTime) :=
  match data.get "deadline" with
  | none => some none
  | some v =>
    if v.truthy then
      match v with
      | .int n => some (some (fromtimestampMs off n))
      | .bool b => some (some (fromtimestampMs off (if b then 1 else 0)))
      | .str s => (fromisoformat s).map some
      | _ => none
    else some none

/-- The `claimedAt`/`completedAt` pattern:
`datetime.fromtimestamp(data[k] / 1000) if data.get(k) else None`. -/
def msTimeOf (off : Int) (data : Json) (k : String) : Option (Option PyDateTime) :=
  match data.get k with
  | none => some none
  | some v =>
    if v.truthy then (msValue v).map (fun n => some (fromtimestampMs off n))
    else some none

/-- `int(float(data.get("reward", 0)))`.  Integers (and bools) convert
exactly; fractional numbers and numeric strings are not modelled (no claim
exercises them), so any other value is `none`. -/
def rewardOf (data : Json) : Option Int :=
  match data.getD "reward" (.int 0) with
  | .int n => some n
  | .bool b => some (if b then 1 else 0)
  | _ => none

/-- `Bounty.from_dict(data)` (models.py lines 50-101), with the two ambient
parameters made explicit: `now` (for the `datetime.now()` fallback) and
`off` (the fixed local UTC offset used by `fromtimestamp`).  `none` means an
exception escaped: the result exists exactly when every stage succeeds. -/
def Bounty.from_dict (now off : Int) (data : Json) : Option Bounty :=
  match data with
  | .obj _ =>
    match submissionsOf off data, paymentOf now data, deadlineOf off data,
      rewardOf data, msTimeOf off data "claimedAt", msTimeOf off data "completedAt" with
    | some subs, some pay, some ddl, some rew, some ca, some co =>
      some { id := data.getD "id" (.str ""), uuid := data.getD "uuid" (.str ""),
             title := data.getD "title" (.str ""),
             description := data.getD "description" (.str ""),
             reward := rew,
             reward_formatted := data.getD "rewardFormatted" (.str "0 USDC"),
             status := data.getD "status" (.str "unknown"),
             creator := data.getD "creator" (.str ""),
             deadline := ddl, tags := data.getD "tags" (.arr []),
             requirements := data.getD "requirements" (.arr []),
             submissions := subs, claimed_by := data.get "claimedBy",
             claimed_at := ca, completed_at := co, payment := pay }
    | _, _, _, _, _, _ => none
  | _ => none

/-- `Stats.from_dict(data)` (models.py lines 114-123). `none`: `.get` on a
non-dict raises. -/
def Stats.from_dict (data : Json) : Option Stats :=
  match data with
  | .obj _ =>
    some ⟨data.getD "totalBounties" (.int 0), data.getD "openBounties" (.int 0),
      data.getD "claimedBounties" (.int 0), data.getD "completedBounties" (.int 0),
      data.getD "totalPayouts" (.int 0), data.getD "totalPayoutsFormatted" (.str "0 USDC")⟩
  | _ => none

/-! ## Transport client (`client.py` / `async_client.py`)

The HTTP transport is abstracted as a trace of wire events; each attempt of
the retry loop consumes one event.  `urlopen` raising `HTTPError` for a
status ≥ 400 and `aiohttp` exposing `response.status` are the same event,
interpreted by each model as its source does. -/

/-- The body of one HTTP response: valid JSON, or raw non-JSON text. -/
inductive BodyWire where
  | jsonBody (j : Json)
  | textBody (s : String)
deriving DecidableEq, Repr

/-- One observed transport event: a response with a status code and body, or
a transport-level fault (network error, timeout, ...) carrying the
exception's text. -/
inductive WireEvent where
  | resp (status : Nat) (body : BodyWire)
  | fail (msg : String)
deriving DecidableEq, Repr

/-- Outcome of one `_request` call.  `crash` is an exception that is neither
`BountyBoardError` nor `BountyAlreadyClaimedError` escaping (the sync
client's `AttributeError` on a 409 with a non-dict or non-string error).
`noResponse` marks a trace too short to drive the run (modelling artefact,
excluded by every theorem's hypotheses). -/
inductive Outcome where
  | ok (j : Json)
  | alreadyClaimed (claimedBy claimedAt : Json)
  | boardError (msg : String)
  | crash
  | noResponse
deriving DecidableEq, Repr

/-- Result of a `_request` run: the outcome, the number of network calls
made (= trace events consumed), and the backoff sleeps performed, in order. -/
structure RunResult where
  outcome : Outcome
  calls : Nat
  sleeps : List Rat
deriving DecidableEq, Repr

/-- `retry_delay * (attempt + 1)` — the linear backoff duration. -/
def slp (d : Rat) (attempt : Nat) : Rat := d * ((attempt : Rat) + 1)

/-- Result of the sync/async `"claimed" in ...` check on a 409. -/
inductive ErrCheck where
  | claimedYes
  | claimedNo
  | attrCrash
deriving DecidableEq, Repr

/-- Sync client: `e.code == 409 and "claimed" in error_data.get("error", "").lower()`.
Evaluated only on dict `error_data` (the caller handles non-dicts).  The
`and` short-circuits, so `.lower()` (and its possible `AttributeError`) only
happens on a 409; the `""` default makes the test `False` when `error` is
absent. -/
def syncClaimCheck (status : Nat) (ed : Json) : ErrCheck :=
  if status = 409 then
    match ed.get "error" with
    | some (.str s) => if hasClaimed s then .claimedYes else .claimedNo
    | some _ => .attrCrash
    | none => if hasClaimed "" then .claimedYes else .claimedNo
  else .claimedNo

/-- Async client: `response.status == 409 and "claimed" in error_msg.lower()`
where `error_msg = response_data.get("error", "Unknown error")`. -/
def asyncClaimCheck (status : Nat) (rd : Json) : ErrCheck :=
  if status = 409 then
    match rd.get "error" with
    | some (.str s) => if hasClaimed s then .claimedYes else .claimedNo
    | some _ => .attrCrash
    | none => if hasClaimed "Unknown error" then .claimedYes else .claimedNo
  else .claimedNo

/-- Sync client: error-body parsing `json.loads(error_body)` with the bare
`except` fallback to `{"error": error_body}`. -/
def errJson : BodyWire → Json
  | .jsonBody j => j
  | .textBody s => .obj [("error", .str s)]

/-- Stand-in for the text of `json.JSONDecodeError` raised by `json.loads`
on a non-JSON success body (sync client); the exact Python text is
environment-specific and nothing depends on it. -/
def sDecodeMsg (s : String) : String := "JSON decode failure: " ++ s

/-- Stand-in for the text of the `aiohttp`/decoder exception raised by
`response.json()` on a non-JSON body (async client). -/
def aDecodeMsg (s : String) : String := "response.json decode failure: " ++ s

/-- Stand-in for the `AttributeError` text when `.get`/`.lower` is called on
an unsuitable value inside the async client's `try` block. -/
def attrMsg : String := "AttributeError"

/-- `BountyClient._request` (client.py lines 59-104): the `for attempt in
range(max_retries)` loop, with `attempt` the 0-based index and `fuel` the
number of iterations left (`fuel = max_retries - attempt`; the entry point
passes `attempt = 0`, `fuel = mr`).  `attempt + 1 < mr` is the source's
`attempt < self.max_retries - 1`. -/
def syncGo (mr : Nat) (d : Rat) : Nat → Nat → List WireEvent → RunResult
  | _, 0, _ => ⟨.boardError "Max retries exceeded", 0, []⟩
  | _, _ + 1, [] => ⟨.noResponse, 0, []⟩
  | attempt, fuel + 1, e :: es =>
    match e with
    | .fail msg =>
      -- `except Exception as e`: backoff and retry, else wrap the fault
      if attempt + 1 < mr then
        let r := syncGo mr d (attempt + 1) fuel es
        ⟨r.outcome, r.calls + 1, slp d attempt :: r.sleeps⟩
      else ⟨.boardError ("Request failed: " ++ msg), 1, []⟩
    | .resp status body =>
      if 400 ≤ status then
        -- urlopen raised HTTPError
        let ed := errJson body
        match ed with
        | .obj _ =>
          match syncClaimCheck status ed with
          | .claimedYes =>
            ⟨.alreadyClaimed (ed.getD "claimedBy" (.str "unknown"))
              (ed.getD "claimedAt" (.int 0)), 1, []⟩
          | .attrCrash => ⟨.crash, 1, []⟩
          | .claimedNo =>
            if attempt + 1 < mr && 500 ≤ status then
              let r := syncGo mr d (attempt + 1) fuel es
              ⟨r.outcome, r.calls + 1, slp d attempt :: r.sleeps⟩
            else ⟨.boardError ("API error " ++ toString status ++ ": " ++ pyRepr ed), 1, []⟩
        | _ =>
          -- non-dict JSON error body: `.get` raises only if evaluated,
          -- i.e. only on a 409 (short-circuit); otherwise the message
          -- formatting proceeds
          if status = 409 then ⟨.crash, 1, []⟩
          else if attempt + 1 < mr && 500 ≤ status then
            let r := syncGo mr d (attempt + 1) fuel es
            ⟨r.outcome, r.calls + 1, slp d attempt :: r.sleeps⟩
          else ⟨.boardError ("API error " ++ toString status ++ ": " ++ pyRepr ed), 1, []⟩
      else
        match body with
        | .jsonBody j => ⟨.ok j, 1, []⟩
        | .textBody s =>
          -- `json.loads` of the success body raised, caught by `except Exception`
          if attempt + 1 < mr then
            let r := syncGo mr d (attempt + 1) fuel es
            ⟨r.outcome, r.calls + 1, slp d attempt :: r.sleeps⟩
          else ⟨.boardError ("Request failed: " ++ sDecodeMsg s), 1, []⟩

/-- `AsyncBountyClient._request` (async_client.py lines 64-109).
`response.json()` runs before the status check, so any non-JSON body lands
in the generic `except Exception` path; `BountyBoardError` and
`BountyAlreadyClaimedError` raised inside the `try` are re-raised by the
dedicated `except` clause. -/
def asyncGo (mr : Nat) (d : Rat) : Nat → Nat → List WireEvent → RunResult
  | _, 0, _ => ⟨.boardError "Max retries exceeded", 0, []⟩
  | _, _ + 1, [] => ⟨.noResponse, 0, []⟩
  | attempt, fuel + 1, e :: es =>
    match e with
    | .fail msg =>
      if attempt + 1 < mr then
        let r := asyncGo mr d (attempt + 1) fuel es
        ⟨r.outcome, r.calls + 1, slp d attempt :: r.sleeps⟩
      else ⟨.boardError ("Request failed: " ++ msg), 1, []⟩
    | .resp status body =>
      match body with
      | .textBody s =>
        if attempt + 1 < mr then
          let r := asyncGo mr d (attempt + 1) fuel es
          ⟨r.outcome, r.calls + 1, slp d attempt :: r.sleeps⟩
        else ⟨.boardError ("Request failed: " ++ aDecodeMsg s), 1, []⟩
      | .jsonBody j =>
        if 400 ≤ status then
          match j with
          | .obj _ =>
            match asyncClaimCheck status j with
            | .claimedYes =>
              ⟨.alreadyClaimed (j.getD "claimedBy" (.str "unknown"))
                (j.getD "claimedAt" (.int 0)), 1, []⟩
            | .attrCrash =>
              -- AttributeError inside `try` → generic except → retry/wrap
              if attempt + 1 < mr then
                let r := asyncGo mr d (attempt + 1) fuel es
                ⟨r.outcome, r.calls + 1, slp d attempt :: r.sleeps⟩
              else ⟨.boardError ("Request failed: " ++ attrMsg), 1, []⟩
            | .claimedNo =>
              if attempt + 1 < mr && 500 ≤ status then
                let r := asyncGo mr d (attempt + 1) fuel es
                ⟨r.outcome, r.calls + 1, slp d attempt :: r.sleeps⟩
              else
                ⟨.boardError ("API error " ++ toString status ++ ": "
                  ++ pyStr (j.getD "error" (.str "Unknown error"))), 1, []⟩
          | _ =>
            -- `response_data.get(...)` raised AttributeError inside `try`
            if attempt + 1 < mr then
              let r := asyncGo mr d (attempt + 1) fuel es
              ⟨r.outcome, r.calls + 1, slp d attempt :: r.sleeps⟩
            else ⟨.boardError ("Request failed: " ++ attrMsg), 1, []⟩
        else ⟨.ok j, 1, []⟩

/-- `BountyClient._request`, started at attempt 0. -/
def syncRequest (mr : Nat) (d : Rat) (trace : List WireEvent) : RunResult :=
  syncGo mr d 0 mr trace

/-- `AsyncBountyClient._request`, started at attempt 0. -/
def asyncRequest (mr : Nat) (d : Rat) (trace : List WireEvent) : RunResult :=
  asyncGo mr d 0 mr trace

/-! ## Higher-level operations -/

/-- Python `any(t in b.tags for t in tags)`: short-circuiting, propagating a
`TypeError` from `in` (`none`). -/
def anyTagIn : List String → Json → Option Bool
  | [], _ => some false
  | t :: ts, j =>
    match pyInJ t j with
    | none => none
    | some true => some true
    | some false => anyTagIn ts j

/-- The comprehension `[b for b in bounties if any(t in b.tags for t in tags)]`;
an exception inside the predicate aborts the whole comprehension (`none`). -/
def filterTags (ts : List String) : List Bounty → Option (List Bounty)
  | [] => some []
  | b :: bs =>
    match anyTagIn ts b.tags with
    | none => none
    | some keep => (filterTags ts bs).map (fun r => if keep then b :: r else r)

/-- `if tags:` — a `None` or empty tag list skips the filter. -/
def applyTagFilter (tags : Option (List String)) (bs : List Bounty) : Option (List Bounty) :=
  match tags with
  | some ts => if ts.isEmpty then some bs else filterTags ts bs
  | none => some bs

/-- `if status:` — a `None` or empty status skips the filter; otherwise keep
bounties with `b.status == status`. -/
def applyStatusFilter (status : Option String) (bs : List Bounty) : List Bounty :=
  match status with
  | some st => if st.isEmpty then bs else bs.filter (fun b => pyEqStr b.status st)
  | none => bs

/-- Outcome of a higher-level operation returning `α`. -/
inductive OpOutcome (α : Type) where
  | ok (a : α)
  | validationError
  | alreadyClaimed (claimedBy claimedAt : Json)
  | boardError (msg : String)
  | crash
  | noResponse
deriving DecidableEq, Repr

/-- Result of a higher-level operation: its outcome, the JSON body sent with
the request (`none` when no request was issued), calls and sleeps. -/
structure OpRun (α : Type) where
  outcome : OpOutcome α
  sent : Option Json
  calls : Nat
  sleeps : List Rat
deriving DecidableEq, Repr

/-- Lift a `_request` outcome into an operation outcome, mapping the parsed
body through `f` (where `f = none` models an exception in the result
mapping). -/
def liftOutcome (f : Json → Option α) : Outcome → OpOutcome α
  | .ok j =>
    match f j with
    | some a => .ok a
    | none => .crash
  | .alreadyClaimed b a => .alreadyClaimed b a
  | .boardError m => .boardError m
  | .crash => .crash
  | .noResponse => .noResponse

/-- `BountyClient.list_bounties` (client.py lines 106-130): GET `/bounties`,
map every element through `Bounty.from_dict`, then the status filter, then
the tag filter.  The async variant (async_client.py lines 111-135) differs
only in using `asyncRequest`. -/
def list_bounties (mr : Nat) (d : Rat) (now off : Int) (status : Option String)
    (tags : Option (List String)) (trace : List WireEvent) : OpRun (List Bounty) :=
  let r := syncRequest mr d trace
  let f : Json → Option (List Bounty) := fun j => do
    let items ← pyIterList j
    let bs ← items.mapM (Bounty.from_dict now off)
    applyTagFilter tags (applyStatusFilter status bs)
  ⟨liftOutcome f r.outcome, none, r.calls, r.sleeps⟩

/-- `AsyncBountyClient.list_bounties`. -/
def async_list_bounties (mr : Nat) (d : Rat) (now off : Int) (status : Option String)
    (tags : Option (List String)) (trace : List WireEvent) : OpRun (List Bounty) :=
  let r := asyncRequest mr d trace
  let f : Json → Option (List Bounty) := fun j => do
    let items ← pyIterList j
    let bs ← items.mapM (Bounty.from_dict now off)
    applyTagFilter tags (applyStatusFilter status bs)
  ⟨liftOutcome f r.outcome, none, r.calls, r.sleeps⟩

/-- `address = wallet_address or self.wallet_address; if not address: raise`
— the effective wallet address, `none` meaning the `ValueError("Wallet
address required")`.  Python `or` skips a falsy (empty) explicit argument;
`not address` is true for both `None` and `""`. -/
def resolveAddr (arg dflt : Option String) : Option String :=
  let a : Option String :=
    match arg with
    | some s => if s.isEmpty then dflt else some s
    | none => dflt
  match a with
  | some s => if s.isEmpty then none else some s
  | none => none

/-- The `ClaimResult` construction of `claim_bounty`: `data["id"]`,
`data["status"]`, `fromtimestamp(data["claimedAt"] / 1000)`,
`data["claimedBy"]`; a missing key or ill-typed timestamp raises. -/
def mkClaimResult (off : Int) (j : Json) : Option ClaimResult := do
  let idv ← j.get "id"
  let stv ← j.get "status"
  let cav ← j.get "claimedAt"
  let n ← msValue cav
  let cbv ← j.get "claimedBy"
  pure ⟨idv, stv, fromtimestampMs off n, cbv⟩

/-- `BountyClient.claim_bounty` (client.py lines 145-177): resolve the
address, fail locally without any network call when none is available,
otherwise POST `{"address": address}` and map the response. -/
def claim_bounty (mr : Nat) (d : Rat) (off : Int) (dflt : Option String)
    (arg : Option String) (trace : List WireEvent) : OpRun ClaimResult :=
  match resolveAddr arg dflt with
  | none => ⟨.validationError, none, 0, []⟩
  | some addr =>
    let payload := Json.obj [("address", .str addr)]
    let r := syncRequest mr d trace
    ⟨liftOutcome (mkClaimResult off) r.outcome, some payload, r.calls, r.sleeps⟩

/-- The `SubmitResult` construction of `submit_bounty`: `data["id"]`,
`data["status"]`, `data["submissions"][-1]["id"]`. -/
def mkSubmitResult (j : Json) : Option SubmitResult := do
  let idv ← j.get "id"
  let stv ← j.get "status"
  let subsv ← j.get "submissions"
  match subsv with
  | .arr xs => do
    let last ← xs.getLast?
    let sid ← last.get "id"
    pure ⟨idv, stv, sid⟩
  | _ => none

/-- `BountyClient.submit_bounty` (client.py lines 179-215): resolve the
address, fail locally when none is available, otherwise POST
`{"address", "submission"}` plus `"proof"` only when truthy. -/
def submit_bounty (mr : Nat) (d : Rat) (dflt : Option String) (submission : String)
    (proof : Option String) (arg : Option String) (trace : List WireEvent) :
    OpRun SubmitResult :=
  match resolveAddr arg dflt with
  | none => ⟨.validationError, none, 0, []⟩
  | some addr =>
    let payload := Json.obj ([("address", Json.str addr), ("submission", Json.str submission)]
      ++ (match proof with
          | some p => if p.isEmpty then [] else [("proof", Json.str p)]
          | none => []))
    let r := syncRequest mr d trace
    ⟨liftOutcome mkSubmitResult r.outcome, some payload, r.calls, r.sleeps⟩

/-- Whether a JSON error body's `error` member is absent or a string (so the
`.lower()` call cannot raise). -/
def errStrOk (j : Json) : Bool :=
  match j.get "error" with
  | none => true
  | some (.str _) => true
  | some _ => false

/-! ## Helper lemmas -/

theorem getD_of_get_none (j : Json) (k : String) (v : Json) (h : j.get k = none) :
    j.getD k v = v := by
  simp [Json.getD, h]

theorem hasClaimed_empty : hasClaimed "" = false := by decide

theorem hasClaimed_unknown : hasClaimed "Unknown error" = false := by decide

/-- The sync and async already-claimed tests agree: the only difference is
the default for an absent `error` field (`""` vs `"Unknown error"`), and
neither default contains `"claimed"`. -/
theorem claimCheck_eq (status : Nat) (j : Json) :
    syncClaimCheck status j = asyncClaimCheck status j := by
  unfold syncClaimCheck asyncClaimCheck
  by_cases hst : status = 409
  · simp only [hst, if_pos rfl]
    rcases hj : j.get "error" with _ | v
    · simp [hasClaimed_empty, hasClaimed_unknown]
    · cases v <;> simp
  · simp [hst]

/-- A claimed-check can only be `attrCrash` on a 409 whose `error` value is
present and not a string. -/
theorem asyncClaimCheck_attrCrash (status : Nat) (j : Json)
    (h : asyncClaimCheck status j = .attrCrash) : status = 409 ∧ errStrOk j = false := by
  unfold asyncClaimCheck at h
  by_cases hst : status = 409
  · refine ⟨hst, ?_⟩
    simp only [hst, if_pos rfl] at h
    unfold errStrOk
    rcases hj : j.get "error" with _ | v
    · rw [hj] at h
      simp [hasClaimed_unknown] at h
    · cases v with
      | str s =>
        rw [hj] at h
        cases hc : hasClaimed s <;> simp [hc] at h
      | null => simp
      | bool b => simp
      | int n => simp
      | arr xs => simp
      | obj kvs => simp
  · simp [hst] at h

theorem claimCheck_non409 (status : Nat) (j : Json) (h : status ≠ 409) :
    syncClaimCheck status j = .claimedNo ∧ asyncClaimCheck status j = .claimedNo := by
  unfold syncClaimCheck asyncClaimCheck
  simp [h]

/-- A 5xx response with attempts remaining: the sync loop sleeps
`retry_delay * (attempt + 1)` and retries, whatever the body was. -/
theorem syncGo_retry5xx (mr : Nat) (d : Rat) (attempt fuel st : Nat) (bd : BodyWire)
    (tr : List WireEvent) (hst : 500 ≤ st) (ha : attempt + 1 < mr) (hf : 1 ≤ fuel) :
    syncGo mr d attempt fuel (.resp st bd :: tr) =
      ⟨(syncGo mr d (attempt + 1) (fuel - 1) tr).outcome,
       (syncGo mr d (attempt + 1) (fuel - 1) tr).calls + 1,
       slp d attempt :: (syncGo mr d (attempt + 1) (fuel - 1) tr).sleeps⟩ := by
  obtain ⟨k, rfl⟩ : ∃ k, fuel = k + 1 := ⟨fuel - 1, by omega⟩
  have h400 : 400 ≤ st := by omega
  have h409 : st ≠ 409 := by omega
  cases bd with
  | jsonBody j =>
    cases j <;>
      simp [syncGo, errJson, (claimCheck_non409 st _ h409).1, h400, ha, hst, h409]
  | textBody s =>
    simp [syncGo, errJson, (claimCheck_non409 st _ h409).1, h400, ha, hst]

/-- The async analogue of `syncGo_retry5xx`. -/
theorem asyncGo_retry5xx (mr : Nat) (d : Rat) (attempt fuel st : Nat) (bd : BodyWire)
    (tr : List WireEvent) (hst : 500 ≤ st) (ha : attempt + 1 < mr) (hf : 1 ≤ fuel) :
    asyncGo mr d attempt fuel (.resp st bd :: tr) =
      ⟨(asyncGo mr d (attempt + 1) (fuel - 1) tr).outcome,
       (asyncGo mr d (attempt + 1) (fuel - 1) tr).calls + 1,
       slp d attempt :: (asyncGo mr d (attempt + 1) (fuel - 1) tr).sleeps⟩ := by
  obtain ⟨k, rfl⟩ : ∃ k, fuel = k + 1 := ⟨fuel - 1, by omega⟩
  have h400 : 400 ≤ st := by omega
  have h409 : st ≠ 409 := by omega
  cases bd with
  | jsonBody j =>
    cases j <;>
      simp [asyncGo, (claimCheck_non409 st _ h409).2, h400, ha, hst, h409]
  | textBody s => simp [asyncGo, ha]

/-- A JSON success response ends both loops at once. -/
theorem syncGo_success (mr : Nat) (d : Rat) (attempt fuel st : Nat) (j : Json)
    (tr : List WireEvent) (hst : st < 400) (hf : 1 ≤ fuel) :
    syncGo mr d attempt fuel (.resp st (.jsonBody j) :: tr) = ⟨.ok j, 1, []⟩ := by
  obtain ⟨k, rfl⟩ : ∃ k, fuel = k + 1 := ⟨fuel - 1, by omega⟩
  have h400 : ¬ 400 ≤ st := by omega
  simp [syncGo, h400]

theorem asyncGo_success (mr : Nat) (d : Rat) (attempt fuel st : Nat) (j : Json)
    (tr : List WireEvent) (hst : st < 400) (hf : 1 ≤ fuel) :
    asyncGo mr d attempt fuel (.resp st (.jsonBody j) :: tr) = ⟨.ok j, 1, []⟩ := by
  obtain ⟨k, rfl⟩ : ∃ k, fuel = k + 1 := ⟨fuel - 1, by omega⟩
  have h400 : ¬ 400 ≤ st := by omega
  simp [asyncGo, h400]

/-- Inversion of a successful `Bounty.from_dict`: the `status` field is the
input's value (default `"unknown"`) and the `payment` field is exactly what
the payment stage produced. -/
theorem from_dict_fields (now off : Int) (data : Json) (b : Bounty)
    (h : Bounty.from_dict now off data = some b) :
    b.status = data.getD "status" (.str "unknown") ∧ paymentOf now data = some b.payment := by
  cases data with
  | obj kvs =>
    simp only [Bounty.from_dict] at h
    split at h
    · rename_i subs pay ddl rew ca co hsubs hpay hddl hrew hca hco
      obtain rfl : _ = b := Option.some.inj h
      exact ⟨rfl, hpay⟩
    · exact absurd h (by simp)
  | null => simp [Bounty.from_dict] at h
  | bool x => simp [Bounty.from_dict] at h
  | int x => simp [Bounty.from_dict] at h
  | str x => simp [Bounty.from_dict] at h
  | arr x => simp [Bounty.from_dict] at h

/-- If the wire dict has no `payment` member, the payment stage builds
nothing. -/
theorem paymentOf_absent (now : Int) (data : Json) (h : data.get "payment" = none) :
    paymentOf now data = some none := by
  unfold paymentOf
  rw [h]

/-- If the `payment` member's `chain` is absent or the empty string, the
payment stage builds nothing (when it does not raise). -/
theorem paymentOf_chain_falsy (now : Int) (data pj : Json) (op : Option Payment)
    (hp : paymentOf now data = some op) (hpj : data.get "payment" = some pj)
    (hch : pj.get "chain" = none ∨ pj.get "chain" = some (.str "")) : op = none := by
  unfold paymentOf at hp
  rw [hpj] at hp
  dsimp only [] at hp
  by_cases ht : pj.truthy
  · rw [if_pos ht] at hp
    cases pj with
    | obj kvs =>
      have hc : truthyOpt ((Json.obj kvs).get "chain") = false := by
        rcases hch with h1 | h1
        · simp [truthyOpt, h1]
        · rw [h1]
          decide
      rw [hc] at hp
      simp at hp
      exact hp.symm
    | null => simp at hp
    | bool b => simp at hp
    | int n => simp at hp
    | str s => simp at hp
    | arr xs => simp at hp
  · rw [if_neg ht] at hp
    exact (Option.some.inj hp).symm

/-- When the payment stage does construct a `Payment`, its `chain` is the
wire value verbatim and that value is truthy; in particular the `"base"`
default of `p.get("chain", "base")` is dead. -/
theorem paymentOf_some (now : Int) (data : Json) (p : Payment)
    (hp : paymentOf now data = some (some p)) :
    ∃ pj, data.get "payment" = some pj ∧ pj.get "chain" = some p.chain
      ∧ p.chain.truthy = true := by
  unfold paymentOf at hp
  cases hpj : data.get "payment" with
  | none => rw [hpj] at hp; simp at hp
  | some pj =>
    rw [hpj] at hp
    dsimp only [] at hp
    refine ⟨pj, rfl, ?_⟩
    by_cases ht : pj.truthy
    · rw [if_pos ht] at hp
      cases pj with
      | obj kvs =>
        by_cases hc : truthyOpt ((Json.obj kvs).get "chain")
        · rw [if_pos hc] at hp
          cases hpa : processedAtOf now (Json.obj kvs) with
          | none => rw [hpa] at hp; simp at hp
          | some pa =>
            rw [hpa] at hp
            obtain rfl : _ = p := Option.some.inj (Option.some.inj hp)
            cases hcc : (Json.obj kvs).get "chain" with
            | none => rw [hcc] at hc; simp [truthyOpt] at hc
            | some c =>
              rw [hcc] at hc
              simp only [truthyOpt] at hc
              constructor
              · simp [Json.getD, hcc]
              · simp [Json.getD, hcc, hc]
        · rw [if_neg hc] at hp
          simp at hp
      | null => simp at hp
      | bool b => simp at hp
      | int n => simp at hp
      | str s => simp at hp
      | arr xs => simp at hp
    · rw [if_neg ht] at hp
      simp at hp

/-- The inputs on which `Bounty.from_dict` consults the clock: a truthy dict
`payment` with a truthy `chain` but no truthy `processedAt` (the
`datetime.now()` fallback). -/
def usesNow (data : Json) : Bool :=
  match data.get "payment" with
  | some (.obj kvs) =>
    (Json.obj kvs).truthy && truthyOpt ((Json.obj kvs).get "chain")
      && !truthyOpt ((Json.obj kvs).get "processedAt")
  | _ => false

theorem processedAtOf_now_irrel (n1 n2 : Int) (pj : Json)
    (h : truthyOpt (pj.get "processedAt") = true) :
    processedAtOf n1 pj = processedAtOf n2 pj := by
  unfold processedAtOf
  cases hv : pj.get "processedAt" with
  | none => rw [hv] at h; simp [truthyOpt] at h
  | some v =>
    rw [hv] at h
    simp only [truthyOpt] at h
    simp [h]

theorem paymentOf_now_irrel (n1 n2 : Int) (data : Json) (h : usesNow data = false) :
    paymentOf n1 data = paymentOf n2 data := by
  unfold paymentOf
  cases hpj : data.get "payment" with
  | none => rfl
  | some pj =>
    cases pj with
    | obj kvs =>
      unfold usesNow at h
      rw [hpj] at h
      dsimp only [] at h
      dsimp only []
      by_cases ht : (Json.obj kvs).truthy
      · rw [if_pos ht, if_pos ht]
        by_cases hc : truthyOpt ((Json.obj kvs).get "chain")
        · have hpa : truthyOpt ((Json.obj kvs).get "processedAt") = true := by
            simp [ht, hc] at h
            exact h
          rw [processedAtOf_now_irrel n1 n2 _ hpa]
        · simp [hc]
      · rw [if_neg ht, if_neg ht]
    | null => rfl
    | bool b => rfl
    | int n => rfl
    | str s => rfl
    | arr xs => rfl

/-! ## C4 agreement infrastructure -/

/-- The wire events on which the two clients behave alike: transport faults,
any response below 400 (both clients retry a non-JSON success body), and
error responses whose body is a JSON dict — with a string (or absent)
`error` member when the status is 409.  Outside this set they genuinely
diverge (see the C4 counterexample). -/
def goodEvent : WireEvent → Bool
  | .fail _ => true
  | .resp status body =>
    if 400 ≤ status then
      match body with
      | .jsonBody (.obj kvs) => if status = 409 then errStrOk (.obj kvs) else true
      | _ => false
    else true

/-- Agreement of outcomes modulo `BountyBoardError` message text: successes
and already-claimed errors must match exactly, board errors only in kind. -/
def agreeOutcome : Outcome → Outcome → Bool
  | .ok j1, .ok j2 => decide (j1 = j2)
  | .alreadyClaimed b1 a1, .alreadyClaimed b2 a2 => decide (b1 = b2) && decide (a1 = a2)
  | .boardError _, .boardError _ => true
  | .crash, .crash => true
  | .noResponse, .noResponse => true
  | _, _ => false

/-- Agreement of whole runs: outcomes agree (modulo board-error text) and the
call counts and backoff schedules are identical. -/
def agreeRun (r1 r2 : RunResult) : Bool :=
  agreeOutcome r1.outcome r2.outcome && decide (r1.calls = r2.calls)
    && decide (r1.sleeps = r2.sleeps)

/-- Both claimed-checks fire on a 409 with a string error containing
"claimed" (case-insensitively). -/
theorem claimCheck_yes (j : Json) (s : String) (herr : j.get "error" = some (.str s))
    (hcl : hasClaimed s = true) :
    syncClaimCheck 409 j = .claimedYes ∧ asyncClaimCheck 409 j = .claimedYes := by
  unfold syncClaimCheck asyncClaimCheck
  constructor <;> simp [herr, hcl]

/-! ## Claims -/

/-- C1: a 409 response whose JSON error text contains the substring
"claimed" (case-insensitive) makes both the sync and the async `_request`
fail immediately with `BountyAlreadyClaimedError` carrying the `claimedBy`
and `claimedAt` values from the response (defaults `"unknown"`/`0`), after
exactly one network call and no backoff sleep, regardless of how many
attempts remain (`mr` arbitrary). -/
theorem c1_already_claimed_no_retry (mr : Nat) (d : Rat) (kvs : List (String × Json))
    (rest : List WireEvent) (s : String) (hmr : 1 ≤ mr)
    (herr : (Json.obj kvs).get "error" = some (.str s)) (hcl : hasClaimed s = true) :
    syncRequest mr d (.resp 409 (.jsonBody (.obj kvs)) :: rest) =
      ⟨.alreadyClaimed ((Json.obj kvs).getD "claimedBy" (.str "unknown"))
        ((Json.obj kvs).getD "claimedAt" (.int 0)), 1, []⟩ ∧
    asyncRequest mr d (.resp 409 (.jsonBody (.obj kvs)) :: rest) =
      ⟨.alreadyClaimed ((Json.obj kvs).getD "claimedBy" (.str "unknown"))
        ((Json.obj kvs).getD "claimedAt" (.int 0)), 1, []⟩ := by
  obtain ⟨k, rfl⟩ : ∃ k, mr = k + 1 := ⟨mr - 1, by omega⟩
  obtain ⟨hcs, hca⟩ := claimCheck_yes (Json.obj kvs) s herr hcl
  constructor
  · simp [syncRequest, syncGo, errJson, hcs]
  · simp [asyncRequest, asyncGo, hca]

/-- C1 witness: the spec's example 409 body, with `max_retries = 3`. -/
theorem c1_already_claimed_no_retry_witness :
    1 ≤ 3 ∧
    (Json.obj [("error", .str "Bounty already claimed"), ("claimedBy", .str "0xABC"),
      ("claimedAt", .int 1700000000000)]).get "error" = some (.str "Bounty already claimed") ∧
    hasClaimed "Bounty already claimed" = true ∧
    (syncRequest 3 1 [.resp 409 (.jsonBody (.obj [("error", .str "Bounty already claimed"),
        ("claimedBy", .str "0xABC"), ("claimedAt", .int 1700000000000)]))] =
      ⟨.alreadyClaimed (.str "0xABC") (.int 1700000000000), 1, []⟩ ∧
     asyncRequest 3 1 [.resp 409 (.jsonBody (.obj [("error", .str "Bounty already claimed"),
        ("claimedBy", .str "0xABC"), ("claimedAt", .int 1700000000000)]))] =
      ⟨.alreadyClaimed (.str "0xABC") (.int 1700000000000), 1, []⟩) :=
  ⟨by decide, by decide, by decide,
    c1_already_claimed_no_retry 3 1
      [("error", .str "Bounty already claimed"), ("claimedBy", .str "0xABC"),
        ("claimedAt", .int 1700000000000)] [] "Bounty already claimed"
      (by decide) (by decide) (by decide)⟩

/-- C2: with `max_retries = 3`, two ≥ 500 responses followed by a success
yield the parsed success body after exactly three calls and two backoff
sleeps `retry_delay * 1` and `retry_delay * 2`, in both clients; and in
general (last two conjuncts) any ≥ 500 response with attempts remaining
makes either client sleep `retry_delay * (attempt + 1)` and retry. -/
theorem c2_backoff_schedule (d : Rat) (j : Json) (b1 b2 : BodyWire) (s1 s2 : Nat)
    (rest : List WireEvent) (mr attempt fuel st : Nat) (bd : BodyWire)
    (tr : List WireEvent)
    (h1 : 500 ≤ s1) (h2 : 500 ≤ s2) (hst : 500 ≤ st) (ha : attempt + 1 < mr)
    (hf : 1 ≤ fuel) :
    syncRequest 3 d (.resp s1 b1 :: .resp s2 b2 :: .resp 200 (.jsonBody j) :: rest) =
      ⟨.ok j, 3, [d * 1, d * 2]⟩ ∧
    asyncRequest 3 d (.resp s1 b1 :: .resp s2 b2 :: .resp 200 (.jsonBody j) :: rest) =
      ⟨.ok j, 3, [d * 1, d * 2]⟩ ∧
    syncGo mr d attempt fuel (.resp st bd :: tr) =
      ⟨(syncGo mr d (attempt + 1) (fuel - 1) tr).outcome,
       (syncGo mr d (attempt + 1) (fuel - 1) tr).calls + 1,
       slp d attempt :: (syncGo mr d (attempt + 1) (fuel - 1) tr).sleeps⟩ ∧
    asyncGo mr d attempt fuel (.resp st bd :: tr) =
      ⟨(asyncGo mr d (attempt + 1) (fuel - 1) tr).outcome,
       (asyncGo mr d (attempt + 1) (fuel - 1) tr).calls + 1,
       slp d attempt :: (asyncGo mr d (attempt + 1) (fuel - 1) tr).sleeps⟩ := by
  refine ⟨?_, ?_, syncGo_retry5xx mr d attempt fuel st bd tr hst ha hf,
    asyncGo_retry5xx mr d attempt fuel st bd tr hst ha hf⟩
  · rw [syncRequest, syncGo_retry5xx 3 d 0 3 s1 b1 _ h1 (by norm_num) (by norm_num),
      syncGo_retry5xx 3 d 1 (3 - 1) s2 b2 _ h2 (by norm_num) (by norm_num),
      syncGo_success 3 d 2 (3 - 1 - 1) 200 j rest (by norm_num) (by norm_num)]
    simp [slp]
    norm_num
  · rw [asyncRequest, asyncGo_retry5xx 3 d 0 3 s1 b1 _ h1 (by norm_num) (by norm_num),
      asyncGo_retry5xx 3 d 1 (3 - 1) s2 b2 _ h2 (by norm_num) (by norm_num),
      asyncGo_success 3 d 2 (3 - 1 - 1) 200 j rest (by norm_num) (by norm_num)]
    simp [slp]
    norm_num

/-- C2 witness: delay 1, two 500s with JSON bodies, then a 200. -/
theorem c2_backoff_schedule_witness :
    (500 ≤ 500 ∧ 0 + 1 < 3 ∧ 1 ≤ 3) ∧
    (syncRequest 3 1 [.resp 500 (.jsonBody (.obj [])), .resp 500 (.jsonBody (.obj [])),
        .resp 200 (.jsonBody (.obj [("x", .int 1)]))] =
      ⟨.ok (.obj [("x", .int 1)]), 3, [1 * 1, 1 * 2]⟩ ∧
     asyncRequest 3 1 [.resp 500 (.jsonBody (.obj [])), .resp 500 (.jsonBody (.obj [])),
        .resp 200 (.jsonBody (.obj [("x", .int 1)]))] =
      ⟨.ok (.obj [("x", .int 1)]), 3, [1 * 1, 1 * 2]⟩ ∧
     syncGo 3 1 0 3 [.resp 500 (.jsonBody (.obj []))] =
      ⟨(syncGo 3 1 (0 + 1) (3 - 1) []).outcome, (syncGo 3 1 (0 + 1) (3 - 1) []).calls + 1,
       slp 1 0 :: (syncGo 3 1 (0 + 1) (3 - 1) []).sleeps⟩ ∧
     asyncGo 3 1 0 3 [.resp 500 (.jsonBody (.obj []))] =
      ⟨(asyncGo 3 1 (0 + 1) (3 - 1) []).outcome, (asyncGo 3 1 (0 + 1) (3 - 1) []).calls + 1,
       slp 1 0 :: (asyncGo 3 1 (0 + 1) (3 - 1) []).sleeps⟩) :=
  ⟨⟨by decide, by decide, by decide⟩,
    c2_backoff_schedule 1 (.obj [("x", .int 1)]) (.jsonBody (.obj []))
      (.jsonBody (.obj [])) 500 500 [] 3 0 3 500 (.jsonBody (.obj [])) []
      (by decide) (by decide) (by decide) (by decide) (by decide)⟩

/-- A wallet argument Python treats as missing: `None` or the empty string. -/
def walletFalsy (o : Option String) : Prop := o = none ∨ o = some ""

/-- C3: with no usable wallet address (argument and client default both
`None`/empty), `claim_bounty` and `submit_bounty` raise the local
validation error with zero network calls and nothing sent; when a non-empty
argument is supplied it is the address POSTed, and with a missing/empty
argument the client default is POSTed. -/
theorem c3_wallet_validation (mr : Nat) (d : Rat) (off : Int) (submission : String)
    (proof : Option String) (arg1 dflt1 : Option String) (tr1 tr2 : List WireEvent)
    (a : String) (dflt2 : Option String) (tr3 : List WireEvent)
    (arg4 : Option String) (w : String) (tr4 : List WireEvent)
    (h1 : walletFalsy arg1) (h2 : walletFalsy dflt1)
    (ha : a.isEmpty = false) (h4 : walletFalsy arg4) (hw : w.isEmpty = false) :
    claim_bounty mr d off dflt1 arg1 tr1 = ⟨.validationError, none, 0, []⟩ ∧
    submit_bounty mr d dflt1 submission proof arg1 tr2 = ⟨.validationError, none, 0, []⟩ ∧
    (claim_bounty mr d off dflt2 (some a) tr3).sent = some (.obj [("address", .str a)]) ∧
    (claim_bounty mr d off (some w) arg4 tr4).sent = some (.obj [("address", .str w)]) := by
  have hE : "".isEmpty = true := rfl
  have hres : resolveAddr arg1 dflt1 = none := by
    rcases h1 with rfl | rfl <;> rcases h2 with rfl | rfl <;> simp [resolveAddr, hE]
  have hres3 : resolveAddr (some a) dflt2 = some a := by
    simp [resolveAddr, ha]
  have hres4 : resolveAddr arg4 (some w) = some w := by
    rcases h4 with rfl | rfl <;> simp [resolveAddr, hw, hE]
  exact ⟨by simp [claim_bounty, hres], by simp [submit_bounty, hres],
    by simp [claim_bounty, hres3], by simp [claim_bounty, hres4]⟩

/-- C3 witness: no address anywhere; explicit address `"0xCAFE"`; empty
explicit argument falling back to default `"0xD"`. -/
theorem c3_wallet_validation_witness :
    (walletFalsy none ∧ walletFalsy (some "") ∧ "0xCAFE".isEmpty = false ∧
      "0xD".isEmpty = false) ∧
    (claim_bounty 3 1 0 (some "") none [] = ⟨.validationError, none, 0, []⟩ ∧
     submit_bounty 3 1 (some "") "done" none none [] = ⟨.validationError, none, 0, []⟩ ∧
     (claim_bounty 3 1 0 none (some "0xCAFE") []).sent =
       some (.obj [("address", .str "0xCAFE")]) ∧
     (claim_bounty 3 1 0 (some "0xD") (some "") []).sent =
       some (.obj [("address", .str "0xD")])) :=
  ⟨⟨Or.inl rfl, Or.inr rfl, by decide, by decide⟩,
    c3_wallet_validation 3 1 0 "done" none none (some "") [] [] "0xCAFE" none []
      (some "") "0xD" [] (Or.inl rfl) (Or.inr rfl) (by decide) (Or.inr rfl) (by decide)⟩

/-- Inversion of a successful `Stats.from_dict`. -/
theorem stats_fields (e : Json) (s : Stats) (h : Stats.from_dict e = some s) :
    s = ⟨e.getD "totalBounties" (.int 0), e.getD "openBounties" (.int 0),
      e.getD "claimedBounties" (.int 0), e.getD "completedBounties" (.int 0),
      e.getD "totalPayouts" (.int 0), e.getD "totalPayoutsFormatted" (.str "0 USDC")⟩ := by
  cases e <;> simp [Stats.from_dict] at h
  exact h.symm

/-- The mapper result for an input providing nothing: every default. -/
def emptyBounty : Bounty :=
  ⟨.str "", .str "", .str "", .str "", 0, .str "0 USDC", .str "unknown", .str "", none,
   .arr [], .arr [], [], none, none, none, none⟩

def openStatusBounty : Bounty := { emptyBounty with status := .str "open" }

def emptyStats : Stats := ⟨.int 0, .int 0, .int 0, .int 0, .int 0, .str "0 USDC"⟩

def exPayment : Payment :=
  ⟨.str "base", .str "USDC", .str "", .int 0, .int 0, .int 0, .str "0%",
   .aware 1700000000000000 0⟩

def paidBounty : Bounty := { emptyBounty with payment := some exPayment }

/-- C5 counterexample: the instant 1700000000000 ms (2023-11-14T22:13:20Z)
encoded as an integer parses (with local offset 0) to a *naive* datetime,
while its offset-carrying ISO-8601 encoding parses to an *aware* one, and a
naive datetime never compares equal to an aware one in Python — so the two
encodings of this instant do not produce equal parsed deadline values. -/
theorem c5_deadline_mixed_cex :
    deadlineOf 0 (.obj [("deadline", .int 1700000000000)])
      = some (some (.naive 1700000000000000)) ∧
    deadlineOf 0 (.obj [("deadline", .str "2023-11-14T22:13:20+00:00")])
      = some (some (.aware 1700000000000000 0)) ∧
    pyDtEq (.naive 1700000000000000) (.aware 1700000000000000 0) = false :=
  ⟨by decide, by decide, by decide⟩

/-- C5 amended: an integer deadline is parsed as epoch-milliseconds and a
string deadline as ISO-8601, and the two encodings of the same instant parse
to equal values exactly when the ISO string is the *naive local-time*
rendering of that instant (no offset designator); an offset-carrying string
yields an aware datetime that is never equal to the integer path's naive
result. -/
theorem c5_deadline_naive_agreement (t off : Int) (s : String) (d1 d2 : Json)
    (ht : (Json.int t).truthy = true) (hs : s.isEmpty = false)
    (hp : fromisoformat s = some (.naive (t * 1000 + off * 60000000)))
    (h1 : d1.get "deadline" = some (.int t)) (h2 : d2.get "deadline" = some (.str s)) :
    deadlineOf off d1 = some (some (.naive (t * 1000 + off * 60000000))) ∧
    deadlineOf off d1 = deadlineOf off d2 := by
  have e1 : deadlineOf off d1 = some (some (.naive (t * 1000 + off * 60000000))) := by
    unfold deadlineOf
    rw [h1]
    dsimp only []
    rw [if_pos ht]
    rfl
  refine ⟨e1, ?_⟩
  rw [e1]
  unfold deadlineOf
  rw [h2]
  dsimp only []
  have hst : (Json.str s).truthy = true := by simp [Json.truthy, hs]
  rw [if_pos hst, hp]
  rfl

/-- C5 amended witness: `1700000000000` ms vs its naive local rendering at
offset 0. -/
theorem c5_deadline_naive_agreement_witness :
    ((Json.int 1700000000000).truthy = true ∧
     "2023-11-14T22:13:20".isEmpty = false ∧
     fromisoformat "2023-11-14T22:13:20"
       = some (.naive (1700000000000 * 1000 + 0 * 60000000))) ∧
    (deadlineOf 0 (.obj [("deadline", .int 1700000000000)])
       = some (some (.naive (1700000000000 * 1000 + 0 * 60000000))) ∧
     deadlineOf 0 (.obj [("deadline", .int 1700000000000)])
       = deadlineOf 0 (.obj [("deadline", .str "2023-11-14T22:13:20")])) :=
  ⟨⟨by decide, by decide, by decide⟩,
    c5_deadline_naive_agreement 1700000000000 0 "2023-11-14T22:13:20"
      (.obj [("deadline", .int 1700000000000)])
      (.obj [("deadline", .str "2023-11-14T22:13:20")])
      (by decide) (by decide) (by decide) (by decide) (by decide)⟩

/-- C6 counterexample: `Bounty.from_dict` is *not* independent of when it
runs — on a payment with a truthy `chain` but no `processedAt`, the
`datetime.now()` fallback makes two invocations at different times produce
different results (here `processed_at` 0 vs 1000000 µs). -/
theorem c6_mapper_time_dependence_cex :
    Bounty.from_dict 0 0 (.obj [("payment", .obj [("chain", .str "base")])]) ≠
    Bounty.from_dict 1000000 0 (.obj [("payment", .obj [("chain", .str "base")])]) := by
  decide

/-- C6 amended: on every input that does not hit the `datetime.now()`
fallback (no constructed `Payment`, or a truthy `processedAt`), the mapper
is pure: its result does not depend on the invocation time.
(`Stats.from_dict` and the `Submission` construction never consult the
clock at all, as their models take no `now` parameter.) -/
theorem c6_mapper_pure_unless_now (n1 n2 off : Int) (data : Json)
    (h : usesNow data = false) :
    Bounty.from_dict n1 off data = Bounty.from_dict n2 off data := by
  cases data with
  | obj kvs =>
    simp only [Bounty.from_dict]
    rw [paymentOf_now_irrel n1 n2 _ h]
  | null => rfl
  | bool b => rfl
  | int n => rfl
  | str s => rfl
  | arr xs => rfl

/-- C6 amended witness: a payment carrying `processedAt` is mapped
identically at two different invocation times. -/
theorem c6_mapper_pure_unless_now_witness :
    usesNow (.obj [("payment", .obj [("chain", .str "base"),
      ("processedAt", .str "2023-11-14T22:13:20Z")])]) = false ∧
    Bounty.from_dict 0 0 (.obj [("payment", .obj [("chain", .str "base"),
      ("processedAt", .str "2023-11-14T22:13:20Z")])]) =
    Bounty.from_dict 5000000 0 (.obj [("payment", .obj [("chain", .str "base"),
      ("processedAt", .str "2023-11-14T22:13:20Z")])]) :=
  ⟨by decide,
    c6_mapper_pure_unless_now 0 5000000 0
      (.obj [("payment", .obj [("chain", .str "base"),
        ("processedAt", .str "2023-11-14T22:13:20Z")])]) (by decide)⟩

/-- C7 counterexample: the mapper does not validate `status` — an input with
`status = "weird"` produces a Bounty whose status is `"weird"`, which is
none of the five enumerated values. -/
theorem c7_status_enum_cex :
    (Bounty.from_dict 0 0 (.obj [("status", .str "weird")])).map Bounty.status
      = some (.str "weird") ∧
    Json.str "weird" ∉ [Json.str "open", Json.str "claimed", Json.str "submitted",
      Json.str "completed", Json.str "unknown"] :=
  ⟨by decide, by decide⟩

/-- C7 amended: the mapped `status` is the input's `status` value verbatim
when present (so it lies in the enumerated set exactly when the server sends
such a value) and the sentinel `"unknown"` when absent. -/
theorem c7_status_verbatim (now off : Int) (d1 d2 : Json) (b1 b2 : Bounty) (sv : Json)
    (h1 : Bounty.from_dict now off d1 = some b1) (hs1 : d1.get "status" = none)
    (h2 : Bounty.from_dict now off d2 = some b2) (hs2 : d2.get "status" = some sv) :
    b1.status = .str "unknown" ∧ b2.status = sv := by
  have e1 := (from_dict_fields now off d1 b1 h1).1
  have e2 := (from_dict_fields now off d2 b2 h2).1
  constructor
  · rw [e1, getD_of_get_none _ _ _ hs1]
  · rw [e2]
    simp [Json.getD, hs2]

/-- C7 amended witness: absent status gives "unknown"; an explicit "open" is
kept verbatim. -/
theorem c7_status_verbatim_witness :
    (Bounty.from_dict 0 0 (.obj []) = some emptyBounty ∧
     (Json.obj []).get "status" = none ∧
     Bounty.from_dict 0 0 (.obj [("status", .str "open")]) = some openStatusBounty ∧
     (Json.obj [("status", .str "open")]).get "status" = some (.str "open")) ∧
    (emptyBounty.status = .str "unknown" ∧ openStatusBounty.status = .str "open") :=
  ⟨⟨by decide, by decide, by decide, by decide⟩,
    c7_status_verbatim 0 0 (.obj []) (.obj [("status", .str "open")])
      emptyBounty openStatusBounty (.str "open")
      (by decide) (by decide) (by decide) (by decide)⟩

/-- C9: the documented defaults for absent optional fields — an absent
`payment`, or one whose `chain` is absent or empty, yields no `Payment`
object at all; an absent `status` yields `"unknown"`; every `Stats` counter
defaults to `0`, and the formatted payout to `"0 USDC"`, when its field is
absent. -/
theorem c9_mapper_defaults (now off : Int)
    (d1 : Json) (b1 : Bounty) (h1 : Bounty.from_dict now off d1 = some b1)
    (hp1 : d1.get "payment" = none)
    (d2 pj : Json) (b2 : Bounty) (h2 : Bounty.from_dict now off d2 = some b2)
    (hpj : d2.get "payment" = some pj)
    (hch : pj.get "chain" = none ∨ pj.get "chain" = some (.str ""))
    (d3 : Json) (b3 : Bounty) (h3 : Bounty.from_dict now off d3 = some b3)
    (hs3 : d3.get "status" = none)
    (e1 e2 e3 e4 e5 e6 : Json) (s1 s2 s3 s4 s5 s6 : Stats)
    (hg1 : Stats.from_dict e1 = some s1) (ha1 : e1.get "totalBounties" = none)
    (hg2 : Stats.from_dict e2 = some s2) (ha2 : e2.get "openBounties" = none)
    (hg3 : Stats.from_dict e3 = some s3) (ha3 : e3.get "claimedBounties" = none)
    (hg4 : Stats.from_dict e4 = some s4) (ha4 : e4.get "completedBounties" = none)
    (hg5 : Stats.from_dict e5 = some s5) (ha5 : e5.get "totalPayouts" = none)
    (hg6 : Stats.from_dict e6 = some s6) (ha6 : e6.get "totalPayoutsFormatted" = none) :
    b1.payment = none ∧ b2.payment = none ∧ b3.status = .str "unknown" ∧
    s1.total_bounties = .int 0 ∧ s2.open_bounties = .int 0 ∧
    s3.claimed_bounties = .int 0 ∧ s4.completed_bounties = .int 0 ∧
    s5.total_payouts = .int 0 ∧ s6.total_payouts_formatted = .str "0 USDC" := by
  refine ⟨?_, ?_, ?_, ?_, ?_, ?_, ?_, ?_, ?_⟩
  · have hpay := (from_dict_fields now off d1 b1 h1).2
    rw [paymentOf_absent now d1 hp1] at hpay
    exact (Option.some.inj hpay).symm
  · exact paymentOf_chain_falsy now d2 pj b2.payment
      (from_dict_fields now off d2 b2 h2).2 hpj hch
  · rw [(from_dict_fields now off d3 b3 h3).1, getD_of_get_none _ _ _ hs3]
  · rw [stats_fields e1 s1 hg1]
    exact getD_of_get_none _ _ _ ha1
  · rw [stats_fields e2 s2 hg2]
    exact getD_of_get_none _ _ _ ha2
  · rw [stats_fields e3 s3 hg3]
    exact getD_of_get_none _ _ _ ha3
  · rw [stats_fields e4 s4 hg4]
    exact getD_of_get_none _ _ _ ha4
  · rw [stats_fields e5 s5 hg5]
    exact getD_of_get_none _ _ _ ha5
  · rw [stats_fields e6 s6 hg6]
    exact getD_of_get_none _ _ _ ha6

/-- C9 witness: empty bounty/stats dicts and a payment whose chain is the
empty string. -/
theorem c9_mapper_defaults_witness :
    (Bounty.from_dict 0 0 (.obj []) = some emptyBounty ∧
     Bounty.from_dict 0 0 (.obj [("payment", .obj [("chain", .str "")])])
       = some emptyBounty ∧
     Stats.from_dict (.obj []) = some emptyStats) ∧
    (emptyBounty.payment = none ∧ emptyBounty.payment = none ∧
     emptyBounty.status = .str "unknown" ∧
     emptyStats.total_bounties = .int 0 ∧ emptyStats.open_bounties = .int 0 ∧
     emptyStats.claimed_bounties = .int 0 ∧ emptyStats.completed_bounties = .int 0 ∧
     emptyStats.total_payouts = .int 0 ∧
     emptyStats.total_payouts_formatted = .str "0 USDC") :=
  ⟨⟨by decide, by decide, by decide⟩,
    c9_mapper_defaults 0 0 (.obj []) emptyBounty (by decide) (by decide)
      (.obj [("payment", .obj [("chain", .str "")])]) (.obj [("chain", .str "")])
      emptyBounty (by decide) (by decide) (Or.inr (by decide))
      (.obj []) emptyBounty (by decide) (by decide)
      (.obj []) (.obj []) (.obj []) (.obj []) (.obj []) (.obj [])
      emptyStats emptyStats emptyStats emptyStats emptyStats emptyStats
      (by decide) (by decide) (by decide) (by decide) (by decide) (by decide)
      (by decide) (by decide) (by decide) (by decide) (by decide) (by decide)⟩

/-- C10: whenever `Bounty.from_dict` constructs a `Payment`, its `chain` is
the wire payment object's `chain` value verbatim, and that value is truthy
(non-empty) — so the `"base"` fallback in `p.get("chain", "base")` is never
used, the construction being guarded on a truthy chain. -/
theorem c10_payment_chain_verbatim (now off : Int) (data : Json) (b : Bounty)
    (p : Payment) (h : Bounty.from_dict now off data = some b)
    (hp : b.payment = some p) :
    ∃ pj, data.get "payment" = some pj ∧ pj.get "chain" = some p.chain
      ∧ p.chain.truthy = true := by
  have h2 := (from_dict_fields now off data b h).2
  rw [hp] at h2
  exact paymentOf_some now data p h2

/-- C10 witness: a bounty with a constructed payment on chain "base". -/
theorem c10_payment_chain_verbatim_witness :
    (Bounty.from_dict 0 0 (.obj [("payment", .obj [("chain", .str "base"),
        ("processedAt", .str "2023-11-14T22:13:20Z")])]) = some paidBounty ∧
     paidBounty.payment = some exPayment) ∧
    (∃ pj, (Json.obj [("payment", .obj [("chain", .str "base"),
        ("processedAt", .str "2023-11-14T22:13:20Z")])]).get "payment" = some pj ∧
      pj.get "chain" = some exPayment.chain ∧ exPayment.chain.truthy = true) :=
  ⟨⟨by decide, by decide⟩,
    c10_payment_chain_verbatim 0 0
      (.obj [("payment", .obj [("chain", .str "base"),
        ("processedAt", .str "2023-11-14T22:13:20Z")])]) paidBounty exPayment
      (by decide) (by decide)⟩

/-- The OR-semantics predicate of the spec: a bounty is kept iff its tag
list contains at least one of the requested tags. -/
def tagHitB (ts : List String) (b : Bounty) : Bool :=
  match b.tags with
  | .arr xs => ts.any (fun t => decide (Json.str t ∈ xs))
  | _ => false

theorem anyTagIn_arr (ts : List String) (xs : List Json) :
    anyTagIn ts (.arr xs) = some (ts.any (fun t => decide (Json.str t ∈ xs))) := by
  induction ts with
  | nil => simp [anyTagIn]
  | cons t ts ih =>
    simp only [anyTagIn, pyInJ]
    by_cases h : Json.str t ∈ xs
    · simp [h]
    · simp [h, ih]

/-- On bounties whose `tags` are lists, the comprehension's tag filter is an
ordinary order-preserving `filter` by the OR-predicate. -/
theorem filterTags_arrays (ts : List String) (bs : List Bounty)
    (h : ∀ b ∈ bs, ∃ xs, b.tags = Json.arr xs) :
    filterTags ts bs = some (bs.filter (tagHitB ts)) := by
  induction bs with
  | nil => simp [filterTags]
  | cons b bs ih =>
    obtain ⟨xs, hxs⟩ := h b (by simp)
    have ih2 := ih (fun b2 hb2 => h b2 (by simp [hb2]))
    simp only [filterTags, hxs, anyTagIn_arr, ih2, Option.map_some]
    rw [List.filter_cons]
    have : tagHitB ts b = ts.any (fun t => decide (Json.str t ∈ xs)) := by
      simp [tagHitB, hxs]
    by_cases hk : ts.any (fun t => decide (Json.str t ∈ xs)) = true <;>
      simp [hk, this]

/-- C8: on a fetched collection, a non-empty tag list keeps exactly the
bounties whose tag list contains at least one requested tag (logical OR) in
the original server order (the result is a `filter` of the parsed list), a
status filter keeps exactly the bounties whose status string matches
exactly, and the async client filters identically; the last conjunct states
the OR-reading of the predicate. -/
theorem c8_tag_or_filtering (mr : Nat) (d : Rat) (now off : Int) (st : String)
    (ts : List String) (items : List Json) (bs : List Bounty)
    (rest : List WireEvent) (b0 : Bounty) (xs0 : List Json)
    (hmr : 1 ≤ mr) (hst : st.isEmpty = false) (hts : ts.isEmpty = false)
    (hmap : items.mapM (Bounty.from_dict now off) = some bs)
    (harr : ∀ b ∈ bs, ∃ xs, b.tags = Json.arr xs)
    (hb0 : b0.tags = Json.arr xs0) :
    list_bounties mr d now off (some st) (some ts)
        (.resp 200 (.jsonBody (.arr items)) :: rest) =
      ⟨.ok ((bs.filter (fun b => pyEqStr b.status st)).filter (tagHitB ts)),
        none, 1, []⟩ ∧
    list_bounties mr d now off none (some ts)
        (.resp 200 (.jsonBody (.arr items)) :: rest) =
      ⟨.ok (bs.filter (tagHitB ts)), none, 1, []⟩ ∧
    async_list_bounties mr d now off (some st) (some ts)
        (.resp 200 (.jsonBody (.arr items)) :: rest) =
      ⟨.ok ((bs.filter (fun b => pyEqStr b.status st)).filter (tagHitB ts)),
        none, 1, []⟩ ∧
    (tagHitB ts b0 = true ↔ ∃ t ∈ ts, Json.str t ∈ xs0) := by
  have hreq : syncRequest mr d (.resp 200 (.jsonBody (.arr items)) :: rest)
      = ⟨.ok (.arr items), 1, []⟩ := by
    rw [syncRequest]
    exact syncGo_success mr d 0 mr 200 _ rest (by norm_num) hmr
  have hareq : asyncRequest mr d (.resp 200 (.jsonBody (.arr items)) :: rest)
      = ⟨.ok (.arr items), 1, []⟩ := by
    rw [asyncRequest]
    exact asyncGo_success mr d 0 mr 200 _ rest (by norm_num) hmr
  have harr2 : ∀ b ∈ bs.filter (fun b => pyEqStr b.status st), ∃ xs, b.tags = Json.arr xs :=
    fun b hb => harr b (List.mem_of_mem_filter hb)
  have hmap2 : List.mapM.loop (Bounty.from_dict now off) items [] = some bs := hmap
  refine ⟨?_, ?_, ?_, ?_⟩
  · simp only [list_bounties, hreq, liftOutcome, applyStatusFilter, applyTagFilter,
      hst, hts, Bool.false_eq_true, if_false]
    simp [pyIterList, hmap2, filterTags_arrays ts _ harr2]
  · simp only [list_bounties, hreq, liftOutcome, applyStatusFilter, applyTagFilter,
      hts, Bool.false_eq_true, if_false]
    simp [pyIterList, hmap2, filterTags_arrays ts bs harr]
  · simp only [async_list_bounties, hareq, liftOutcome, applyStatusFilter,
      applyTagFilter, hst, hts, Bool.false_eq_true, if_false]
    simp [pyIterList, hmap2, filterTags_arrays ts _ harr2]
  · simp [tagHitB, hb0, List.any_eq_true]

def exTagBounty : Bounty := { emptyBounty with tags := .arr [.str "a"] }

/-- C8 witness: one bounty tagged `["a"]`, requested tags `["a","b"]`. -/
theorem c8_tag_or_filtering_witness :
    ([Json.obj [("tags", .arr [.str "a"])]].mapM (Bounty.from_dict 0 0)
        = some [exTagBounty] ∧
     (∀ b ∈ [exTagBounty], ∃ xs, b.tags = Json.arr xs) ∧
     exTagBounty.tags = Json.arr [.str "a"]) ∧
    (list_bounties 3 1 0 0 (some "open") (some ["a", "b"])
        [.resp 200 (.jsonBody (.arr [Json.obj [("tags", .arr [.str "a"])]]))] =
      ⟨.ok (([exTagBounty].filter (fun b => pyEqStr b.status "open")).filter
        (tagHitB ["a", "b"])), none, 1, []⟩ ∧
     list_bounties 3 1 0 0 none (some ["a", "b"])
        [.resp 200 (.jsonBody (.arr [Json.obj [("tags", .arr [.str "a"])]]))] =
      ⟨.ok ([exTagBounty].filter (tagHitB ["a", "b"])), none, 1, []⟩ ∧
     async_list_bounties 3 1 0 0 (some "open") (some ["a", "b"])
        [.resp 200 (.jsonBody (.arr [Json.obj [("tags", .arr [.str "a"])]]))] =
      ⟨.ok (([exTagBounty].filter (fun b => pyEqStr b.status "open")).filter
        (tagHitB ["a", "b"])), none, 1, []⟩ ∧
     (tagHitB ["a", "b"] exTagBounty = true ↔
        ∃ t ∈ ["a", "b"], Json.str t ∈ [Json.str "a"])) :=
  ⟨⟨by decide,
    fun b hb => by
      simp at hb
      subst hb
      exact ⟨[.str "a"], rfl⟩,
    by decide⟩,
   c8_tag_or_filtering 3 1 0 0 "open" ["a", "b"]
     [Json.obj [("tags", .arr [.str "a"])]] [exTagBounty] [] exTagBounty [.str "a"]
     (by decide) (by decide) (by decide) (by decide)
     (fun b hb => by
       simp at hb
       subst hb
       exact ⟨[.str "a"], rfl⟩)
     (by decide)⟩

/-- C4 counterexample: the two clients do *not* produce the same outcome on
every transport behaviour.  On a 409 whose body is the non-JSON text
"already claimed" (three times, `max_retries = 3`, delay 1), the sync client
wraps the text as `{"error": ...}` and raises `BountyAlreadyClaimedError`
after one call with no sleep, while the async client's `response.json()`
raises, so it backs off and retries twice and ends with a
`BountyBoardError` after three calls — a different error kind after a
different number of attempts. -/
theorem c4_sync_async_diverge_cex :
    syncRequest 3 1 [.resp 409 (.textBody "already claimed"),
        .resp 409 (.textBody "already claimed"), .resp 409 (.textBody "already claimed")]
      = ⟨.alreadyClaimed (.str "unknown") (.int 0), 1, []⟩ ∧
    asyncRequest 3 1 [.resp 409 (.textBody "already claimed"),
        .resp 409 (.textBody "already claimed"), .resp 409 (.textBody "already claimed")]
      = ⟨.boardError ("Request failed: " ++ aDecodeMsg "already claimed"), 3,
          [slp 1 0, slp 1 1]⟩ ∧
    agreeRun (syncRequest 3 1 [.resp 409 (.textBody "already claimed"),
        .resp 409 (.textBody "already claimed"), .resp 409 (.textBody "already claimed")])
      (asyncRequest 3 1 [.resp 409 (.textBody "already claimed"),
        .resp 409 (.textBody "already claimed"),
        .resp 409 (.textBody "already claimed")]) = false := by
  refine ⟨by decide, ?_, by decide⟩
  simp [asyncRequest, asyncGo]

/-- C4 amended: over traces of transport faults and JSON-dict-bodied
responses (with a string or absent `error` member on 409s), the sync and
async `_request` agree: equal parsed success bodies, equal already-claimed
payloads, board errors of the same kind, and identical call counts and
backoff schedules.  Message text of board errors (and behaviour on non-JSON
bodies, per the counterexample) is where they differ. -/
theorem c4_agree_modulo_messages (mr : Nat) (d : Rat) (attempt fuel : Nat)
    (trace : List WireEvent) (h : trace.all goodEvent = true) :
    agreeRun (syncGo mr d attempt fuel trace) (asyncGo mr d attempt fuel trace)
      = true := by
  induction fuel generalizing attempt trace with
  | zero => simp [syncGo, asyncGo, agreeRun, agreeOutcome]
  | succ fuel ih =>
    cases trace with
    | nil => simp [syncGo, asyncGo, agreeRun, agreeOutcome]
    | cons e es =>
      rw [List.all_cons, Bool.and_eq_true] at h
      obtain ⟨hge, hes⟩ := h
      have hstep : ∀ r1 r2 : RunResult, agreeRun r1 r2 = true →
          agreeRun ⟨r1.outcome, r1.calls + 1, slp d attempt :: r1.sleeps⟩
            ⟨r2.outcome, r2.calls + 1, slp d attempt :: r2.sleeps⟩ = true := by
        intro r1 r2 hr
        simp only [agreeRun, Bool.and_eq_true, decide_eq_true_eq] at hr ⊢
        exact ⟨⟨hr.1.1, by rw [hr.1.2]⟩, by rw [hr.2]⟩
      cases e with
      | fail msg =>
        simp only [syncGo, asyncGo]
        by_cases hc : attempt + 1 < mr
        · simp only [if_pos hc]
          exact hstep _ _ (ih (attempt + 1) es hes)
        · simp only [if_neg hc]
          simp [agreeRun, agreeOutcome]
      | resp status body =>
        cases body with
        | textBody s =>
          have hlt : ¬ 400 ≤ status := by
            intro h400
            simp [goodEvent, h400] at hge
          simp only [syncGo, asyncGo]
          simp only [if_neg hlt]
          by_cases hc : attempt + 1 < mr
          · simp only [if_pos hc]
            exact hstep _ _ (ih (attempt + 1) es hes)
          · simp only [if_neg hc]
            simp [agreeRun, agreeOutcome]
        | jsonBody j =>
          by_cases h4 : 400 ≤ status
          · obtain ⟨kvs, rfl⟩ : ∃ kvs, j = .obj kvs := by
              cases j with
              | obj kvs => exact ⟨kvs, rfl⟩
              | null => simp [goodEvent, h4] at hge
              | bool b => simp [goodEvent, h4] at hge
              | int n => simp [goodEvent, h4] at hge
              | str s => simp [goodEvent, h4] at hge
              | arr xs => simp [goodEvent, h4] at hge
            simp only [syncGo, asyncGo, errJson]
            simp only [if_pos h4]
            rw [← claimCheck_eq status (Json.obj kvs)]
            cases hcc : syncClaimCheck status (Json.obj kvs) with
            | claimedYes =>
              simp [agreeRun, agreeOutcome]
            | attrCrash =>
              obtain ⟨h409, hbad⟩ := asyncClaimCheck_attrCrash status (Json.obj kvs)
                (by rw [← claimCheck_eq]; exact hcc)
              simp [goodEvent, h4, h409, hbad] at hge
            | claimedNo =>
              dsimp only []
              by_cases hrc : attempt + 1 < mr ∧ 500 ≤ status
              · have hb1 : (decide (attempt + 1 < mr) && decide (500 ≤ status)) = true := by
                  simp only [Bool.and_eq_true, decide_eq_true_eq]
                  exact hrc
                simp only [if_pos hb1]
                exact hstep _ _ (ih (attempt + 1) es hes)
              · have hb2 : ¬ (decide (attempt + 1 < mr) && decide (500 ≤ status)) = true := by
                  simp only [Bool.and_eq_true, decide_eq_true_eq]
                  exact hrc
                simp only [if_neg hb2]
                simp [agreeRun, agreeOutcome]
          · simp only [syncGo, asyncGo]
            simp only [if_neg h4]
            simp [agreeRun, agreeOutcome]

/-- C4 amended witness: a 404 with a JSON error body — both clients fail
with a board error after one call. -/
theorem c4_agree_modulo_messages_witness :
    [WireEvent.resp 404 (.jsonBody (.obj [("error", .str "nope")]))].all goodEvent
      = true ∧
    agreeRun
      (syncGo 3 1 0 3 [.resp 404 (.jsonBody (.obj [("error", .str "nope")]))])
      (asyncGo 3 1 0 3 [.resp 404 (.jsonBody (.obj [("error", .str "nope")]))])
      = true :=
  ⟨by decide,
    c4_agree_modulo_messages 3 1 0 3
      [.resp 404 (.jsonBody (.obj [("error", .str "nope")]))] (by decide)⟩
